import Mathlib

/-!
Shallow embedding of the incident-query-service repository
(FastAPI + SQLAlchemy, files src/app/routers/incident.py,
src/app/routers/manager_router.py, src/app/models/model.py), together
with theorems checking the natural-language specification against it.

Modelling conventions:
* UUID-valued columns and JWT claim fields are `String`s; the database
  compares them by string equality, matching the exact-match filters of
  the source queries.
* Timestamps (`creation_date`, `created_at`, the current time) are `Nat`
  seconds; `timedelta(hours = h)` becomes `h * 3600` seconds.
* The SQLAlchemy session is `Except String DB`: `.ok d` is a reachable
  store holding the two tables, `.error e` is a store whose queries
  raise an error with message `e`.  A handler with a `try/except` around
  its queries turns that into an HTTP 500; a handler without one lets it
  escape (`HResult.unhandled`).
* `order_by(col.desc()) / .asc()` is insertion sort by the corresponding
  relation (a stable sort, like the SQL ordering it models).
* `jwt.decode(token, SECRET_KEY, algorithms=[ALGORITHM])` is an abstract
  parameter `decodeTok : List Char → Option α`; `none` stands for any
  `jwt.PyJWTError` raised by the decode, `some payload` for a successful
  verification.  Headers and tokens are `List Char` so that the
  character-level behaviour of `str.replace` / `str.startswith` is exact.
* Python `uuid.UUID(s)` (standard library, not part of this repository)
  is an abstract parameter `pu : String → Option String`: `none` stands
  for the `ValueError` raised on a string that is not a valid UUID,
  `some u` for a successful parse.
-/

namespace IncidentQuery

/-- A row of the `incidents` table (src/app/models/model.py, class Incident).
The binary attachment columns `file_data`/`file_name` play no role in any
claim and are carried as an optional string payload. -/
structure Incident where
  id : String
  description : String
  state : String
  channel : String
  priority : String
  creation_date : Nat
  user_id : String
  company_id : String
  manager_id : Option String
  file_name : Option String
deriving DecidableEq, Repr

/-- A row of the incident-history table (class IncidentHistory): owning
incident id, change description, creation time. -/
structure IncidentHistory where
  incident_id : String
  description : String
  created_at : Nat
deriving DecidableEq, Repr

/-- The decoded JWT payload as the handlers read it: `sub` (subject
identifier) and `user_type` (role tag). -/
structure Claims where
  sub : String
  user_type : String
deriving DecidableEq, Repr

/-- The data store reachable from a session: the two tables. -/
structure DB where
  incidents : List Incident
  histories : List IncidentHistory
deriving DecidableEq, Repr

/-- Outcome of running a FastAPI handler: a successful payload, a raised
`HTTPException(status_code, detail)`, or an exception that escapes the
handler uncaught (Python would surface it as a generic server error
without the structured detail). -/
inductive HResult (α : Type) where
  | ok : α → HResult α
  | httpError : Nat → String → HResult α
  | unhandled : String → HResult α
deriving DecidableEq, Repr

/-! ### Credential decoder (get_current_user, identical in both routers) -/

/-- The scheme marker stripped from the authorization header, as a
character list: the Python literal is the string Bearer followed by a
space. -/
def bearerMarker : List Char := 'B' :: 'e' :: 'a' :: 'r' :: 'e' :: 'r' :: ' ' :: []

/-- Fuel-indexed worker for Python `str.replace(pat, rep)`: scanning left
to right, every non-overlapping occurrence of `pat` is replaced by `rep`.
The fuel only serves structural termination; `replaceAll` supplies
`s.length`, which is enough fuel whenever `pat` is nonempty. -/
def replaceAllAux (pat rep : List Char) : Nat → List Char → List Char
  | _, [] => []
  | 0, s => s
  | fuel + 1, c :: rest =>
    if pat.isPrefixOf (c :: rest) then
      rep ++ replaceAllAux pat rep fuel ((c :: rest).drop pat.length)
    else
      c :: replaceAllAux pat rep fuel rest

/-- Python `s.replace(pat, rep)` for a nonempty pattern `pat`. -/
def replaceAll (pat rep s : List Char) : List Char :=
  replaceAllAux pat rep s.length s

/-- Whether `pat` occurs as a contiguous substring of `s`
(Python `pat in s`), for nonempty `pat`. -/
def hasOccurrence (pat : List Char) : List Char → Bool
  | [] => pat.isEmpty
  | c :: rest => pat.isPrefixOf (c :: rest) || hasOccurrence pat rest

/-- Line 29 of incident.py: strip the scheme marker from the header when
the header starts with it — by substring replacement, not by removing
just the leading marker. -/
def stripBearer (a : List Char) : List Char :=
  if bearerMarker.isPrefixOf a then replaceAll bearerMarker [] a else a

/-- get_current_user (incident.py lines 25-33 and manager_router.py lines
24-32): absent header gives no claims; otherwise strip the marker and
decode, mapping any decode failure to no claims instead of raising. -/
def getCurrentUser {α : Type} (decodeTok : List Char → Option α)
    (authorization : Option (List Char)) : Option α :=
  match authorization with
  | none => none
  | some a =>
    match decodeTok (stripBearer a) with
    | some payload => some payload
    | none => none

/-! ### Query-layer building blocks shared by the handlers -/

/-- order_by(Incident.creation_date.desc()): stable sort putting later
creation timestamps first. -/
def sortDescByCreation (l : List Incident) : List Incident :=
  l.insertionSort (fun a b => b.creation_date ≤ a.creation_date)

/-- order_by(IncidentHistory.created_at.asc()): stable sort putting
earlier history rows first. -/
def sortAscByCreated (l : List IncidentHistory) : List IncidentHistory :=
  l.insertionSort (fun a b => a.created_at ≤ b.created_at)

/-- The query of lines 47-50 of incident.py: filter by exact user id and
company id, order by creation date descending, limit 20. -/
def userCompanyQuery (user_id company_id : String) (d : DB) : List Incident :=
  (sortDescByCreation (d.incidents.filter fun i =>
    i.user_id == user_id && i.company_id == company_id)).take 20

/-! ### Handlers of src/app/routers/incident.py -/

/-- get_user_company_incidents (incident.py lines 35-51). -/
def getUserCompanyIncidents (current_user : Option Claims)
    (user_id company_id : String) (db : Except String DB) :
    HResult (List Incident) :=
  match current_user with
  | none => .httpError 401 "Authentication required"
  | some c =>
    if c.user_type != "manager" && c.sub != user_id then
      .httpError 403 "Not authorized to access this data"
    else
      match db with
      | .error e => .unhandled e
      | .ok d => .ok (userCompanyQuery user_id company_id d)

/-- The fixed bucket bounds of lines 76-79 of incident.py. -/
def callVolumeIntervals : List (Nat × Nat) :=
  [(0, 3), (3, 6), (6, 9), (9, 12), (12, 15), (15, 18), (18, 21), (21, 24)]

/-- get_call_volume (incident.py lines 53-108).  `startOfDay` is the
value of now.replace(hour=0, minute=0, second=0, microsecond=0) for the
current UTC time, in seconds.  The per-bucket count query, the only data
access, sits inside the try/except, so a store failure becomes a 500
whose detail carries the raw error message. -/
def getCallVolume (current_user : Option Claims) (db : Except String DB)
    (startOfDay : Nat) : HResult (List Nat) :=
  match current_user with
  | none => .httpError 401 "Authentication required"
  | some c =>
    if c.user_type != "company" then
      .httpError 403 "Only company users can access this endpoint"
    else
      match db with
      | .error e => .httpError 500 ("Database error: " ++ e)
      | .ok d =>
        .ok (callVolumeIntervals.map fun se =>
          (d.incidents.filter fun i =>
            i.company_id == c.sub && i.channel == "phone" &&
            decide (startOfDay + se.1 * 3600 ≤ i.creation_date) &&
            decide (i.creation_date < startOfDay + se.2 * 3600)).length)

/-- The payload of get_dashboard_stats. -/
structure DashboardStats where
  total_calls : Nat
  open_tickets : Nat
deriving DecidableEq, Repr

/-- get_dashboard_stats (incident.py lines 110-150): two independent
counts for the calling company; no try/except, so a store failure
escapes the handler. -/
def getDashboardStats (current_user : Option Claims)
    (db : Except String DB) : HResult DashboardStats :=
  match current_user with
  | none => .httpError 401 "Authentication required"
  | some c =>
    if c.user_type != "company" then
      .httpError 403 "Only company users can access this endpoint"
    else
      match db with
      | .error e => .unhandled e
      | .ok d =>
        .ok { total_calls := (d.incidents.filter fun i =>
                i.company_id == c.sub && i.channel == "phone").length,
              open_tickets := (d.incidents.filter fun i =>
                i.company_id == c.sub && i.state == "open").length }

/-- get_company_incidents (incident.py lines 152-176). -/
def getCompanyIncidents (current_user : Option Claims)
    (db : Except String DB) : HResult (List Incident) :=
  match current_user with
  | none => .httpError 401 "Authentication required"
  | some c =>
    if c.user_type != "company" then
      .httpError 403 "Only company users can access this endpoint"
    else
      match db with
      | .error e => .unhandled e
      | .ok d =>
        .ok ((sortDescByCreation (d.incidents.filter fun i =>
          i.company_id == c.sub)).take 10)

/-- get_all_incidents (incident.py lines 178-190). -/
def getAllIncidents (current_user : Option Claims)
    (db : Except String DB) : HResult (List Incident) :=
  match current_user with
  | none => .httpError 401 "Authentication required"
  | some c =>
    if c.user_type != "manager" then
      .httpError 403 "Not authorized to access this data"
    else
      match db with
      | .error e => .unhandled e
      | .ok d => .ok (sortDescByCreation d.incidents)

/-- The per-incident summary record built on lines 212-221 of
incident.py (IncidentUserResponse). -/
structure IncidentUserResponse where
  creation_date : Nat
  state : String
  priority : String
  description : String
  company_id : String
deriving DecidableEq, Repr

/-- The Python ValueError message of uuid.UUID on a malformed input. -/
def badUuidMsg : String := "badly formed hexadecimal UUID string"

/-- get_user_incidents_summary (incident.py lines 192-223): after the
guard, UUID(current_user['sub']) is evaluated; a parse failure escapes
the handler uncaught. -/
def getUserIncidentsSummary (pu : String → Option String)
    (current_user : Option Claims) (db : Except String DB) :
    HResult (List IncidentUserResponse) :=
  match current_user with
  | none => .httpError 401 "Authentication required"
  | some c =>
    if c.user_type != "user" then
      .httpError 403 "Not authorized to access this data"
    else
      match pu c.sub with
      | none => .unhandled badUuidMsg
      | some user_id =>
        match db with
        | .error e => .unhandled e
        | .ok d =>
          .ok ((sortDescByCreation (d.incidents.filter fun i =>
            i.user_id == user_id)).map fun i =>
              { creation_date := i.creation_date, state := i.state,
                priority := i.priority, description := i.description,
                company_id := i.company_id })

/-- get_incident_by_id (incident.py lines 225-251): manager-only lookup
by exact id; 404 when absent; otherwise the incident together with its
history rows ordered ascending by created_at. -/
def getIncidentById (current_user : Option Claims) (incident_id : String)
    (db : Except String DB) : HResult (Incident × List IncidentHistory) :=
  match current_user with
  | none => .httpError 401 "Authentication required"
  | some c =>
    if c.user_type != "manager" then
      .httpError 403 "Not authorized to access this data"
    else
      match db with
      | .error e => .unhandled e
      | .ok d =>
        match d.incidents.find? (fun i => i.id == incident_id) with
        | none => .httpError 404 "Incident not found"
        | some inc =>
          .ok (inc, sortAscByCreated (d.histories.filter fun h =>
            h.incident_id == incident_id))

/-! ### Handlers of src/app/routers/manager_router.py -/

/-- get_assigned_incidents (manager_router.py lines 34-53): after the
guard, UUID(current_user['sub']); a parse failure escapes uncaught. -/
def getAssignedIncidents (pu : String → Option String)
    (current_user : Option Claims) (db : Except String DB) :
    HResult (List Incident) :=
  match current_user with
  | none => .httpError 401 "Authentication required"
  | some c =>
    if c.user_type != "manager" then
      .httpError 403 "Not authorized to access this data"
    else
      match pu c.sub with
      | none => .unhandled badUuidMsg
      | some manager_id =>
        match db with
        | .error e => .unhandled e
        | .ok d =>
          .ok (sortDescByCreation (d.incidents.filter fun i =>
            i.manager_id == some manager_id))

/-- The payload of get_manager_daily_stats.  The Python float 4.8 is the
exact decimal 24/5, modelled as a rational. -/
structure DailyStats where
  incidentsHandled : Nat
  avgResolutionTime : String
  customerSatisfaction : ℚ
deriving DecidableEq, Repr

/-- get_manager_daily_stats (manager_router.py lines 55-93): count of the
claims subject manager's closed incidents (no time window), plus two
mocked constants.  No try/except: a store failure, or a UUID parse
failure of the subject, escapes uncaught. -/
def getManagerDailyStats (pu : String → Option String)
    (current_user : Option Claims) (db : Except String DB) :
    HResult DailyStats :=
  match current_user with
  | none => .httpError 401 "Authentication required"
  | some c =>
    if c.user_type != "manager" then
      .httpError 403 "Not authorized to access this data"
    else
      match pu c.sub with
      | none => .unhandled badUuidMsg
      | some manager_id =>
        match db with
        | .error e => .unhandled e
        | .ok d =>
          .ok { incidentsHandled := (d.incidents.filter fun i =>
                  i.manager_id == some manager_id && i.state == "closed").length,
                avgResolutionTime := "15 mins",
                customerSatisfaction := (24 : ℚ) / 5 }

/-- get_high_priority_assigned_incidents (manager_router.py lines
96-137): the manager's high-priority incidents, newest first, each
paired with its ascending history. -/
def getHighPriorityAssignedIncidents (pu : String → Option String)
    (current_user : Option Claims) (db : Except String DB) :
    HResult (List (Incident × List IncidentHistory)) :=
  match current_user with
  | none => .httpError 401 "Authentication required"
  | some c =>
    if c.user_type != "manager" then
      .httpError 403 "Not authorized to access this data"
    else
      match pu c.sub with
      | none => .unhandled badUuidMsg
      | some manager_id =>
        match db with
        | .error e => .unhandled e
        | .ok d =>
          .ok ((sortDescByCreation (d.incidents.filter fun i =>
            i.manager_id == some manager_id && i.priority == "high")).map
              fun inc => (inc, sortAscByCreated (d.histories.filter fun h =>
                h.incident_id == inc.id)))

/-- Whether a handler outcome is an HTTP 500 whose detail carries the
given raw error message as a substring. -/
def isServerErrorWith {α : Type} (r : HResult α) (msg : String) : Bool :=
  match r with
  | .httpError code detail =>
    code == 500 && hasOccurrence msg.toList detail.toList
  | _ => false

/-! ### Order-theoretic facts about the two sorts -/

instance : IsTotal Incident (fun a b => b.creation_date ≤ a.creation_date) :=
  ⟨fun a b => Nat.le_total b.creation_date a.creation_date⟩

instance : IsTrans Incident (fun a b => b.creation_date ≤ a.creation_date) :=
  ⟨fun _ _ _ h1 h2 => Nat.le_trans h2 h1⟩

instance : IsTotal IncidentHistory (fun a b => a.created_at ≤ b.created_at) :=
  ⟨fun a b => Nat.le_total a.created_at b.created_at⟩

instance : IsTrans IncidentHistory (fun a b => a.created_at ≤ b.created_at) :=
  ⟨fun _ _ _ h1 h2 => Nat.le_trans h1 h2⟩

lemma sortDescByCreation_sorted (l : List Incident) :
    (sortDescByCreation l).Pairwise
      (fun a b => b.creation_date ≤ a.creation_date) :=
  List.sorted_insertionSort _ l

lemma sortDescByCreation_perm (l : List Incident) :
    List.Perm (sortDescByCreation l) l :=
  List.perm_insertionSort _ l

lemma sortAscByCreated_sorted (l : List IncidentHistory) :
    (sortAscByCreated l).Pairwise (fun a b => a.created_at ≤ b.created_at) :=
  List.sorted_insertionSort _ l

lemma sortAscByCreated_perm (l : List IncidentHistory) :
    List.Perm (sortAscByCreated l) l :=
  List.perm_insertionSort _ l

/-! ### C5 — manager daily stats -/

/-- C5: for every manager-role request to /manager/daily-stats (with a
UUID-parsable subject), incidentsHandled is the count of all incidents
whose manager_id equals the claims subject and whose state is closed —
no time window — while avgResolutionTime and customerSatisfaction are
the fixed constants 15 mins and 4.8, whatever the store holds. -/
theorem dailyStats_allTime_closed_count_and_constants
    (pu : String → Option String) (c : Claims)
    (hrole : c.user_type = "manager") (mid : String)
    (hpu : pu c.sub = some mid) (d : DB) :
    getManagerDailyStats pu (some c) (.ok d) =
      .ok { incidentsHandled := (d.incidents.filter fun i =>
              i.manager_id == some mid && i.state == "closed").length,
            avgResolutionTime := "15 mins",
            customerSatisfaction := (24 : ℚ) / 5 } := by
  simp [getManagerDailyStats, hrole, hpu]

/-- Concrete instantiation of the daily-stats theorem: one closed and one
open incident for manager m1, one closed incident of another manager. -/
theorem dailyStats_allTime_closed_count_and_constants_witness :
    getManagerDailyStats
      (fun s => if s = "m1" then some "m1" else none)
      (some { sub := "m1", user_type := "manager" })
      (.ok { incidents :=
              [{ id := "i1", description := "a", state := "closed",
                 channel := "phone", priority := "low", creation_date := 5,
                 user_id := "u1", company_id := "c1", manager_id := some "m1",
                 file_name := none },
               { id := "i2", description := "b", state := "open",
                 channel := "chat", priority := "high", creation_date := 9,
                 user_id := "u1", company_id := "c1", manager_id := some "m1",
                 file_name := none },
               { id := "i3", description := "c", state := "closed",
                 channel := "phone", priority := "low", creation_date := 7,
                 user_id := "u2", company_id := "c1", manager_id := some "m2",
                 file_name := none }],
             histories := [] }) =
      .ok { incidentsHandled := 1, avgResolutionTime := "15 mins",
            customerSatisfaction := (24 : ℚ) / 5 } := by
  rw [dailyStats_allTime_closed_count_and_constants
    (fun s => if s = "m1" then some "m1" else none)
    { sub := "m1", user_type := "manager" } rfl "m1" (by decide)]
  rfl

/-! ### C4 — incident by id with history -/

/-- C4: for a manager-role request to /incident-query/id, a nonexistent
id yields exactly a 404 Incident-not-found error, and an existing id
yields one matching incident paired with precisely its history rows,
ordered ascending by creation time. -/
theorem incidentById_404_or_ascending_history (c : Claims)
    (hrole : c.user_type = "manager") (iid : String) (d : DB) :
    ((∀ i ∈ d.incidents, i.id ≠ iid) →
      getIncidentById (some c) iid (.ok d) =
        .httpError 404 "Incident not found") ∧
    ((∃ i ∈ d.incidents, i.id = iid) →
      ∃ inc hist, getIncidentById (some c) iid (.ok d) = .ok (inc, hist) ∧
        inc ∈ d.incidents ∧ inc.id = iid ∧
        hist.Perm (d.histories.filter fun h => h.incident_id == iid) ∧
        hist.Pairwise (fun a b => a.created_at ≤ b.created_at)) := by
  constructor
  · intro habs
    have hnone : d.incidents.find? (fun i => i.id == iid) = none := by
      rw [List.find?_eq_none]
      intro x hx
      simpa using habs x hx
    simp [getIncidentById, hrole, hnone]
  · rintro ⟨i, hi, hid⟩
    have hsome : (d.incidents.find? (fun i => i.id == iid)).isSome := by
      rw [List.find?_isSome]
      exact ⟨i, hi, by simpa using hid⟩
    rcases Option.isSome_iff_exists.mp hsome with ⟨inc, hfind⟩
    refine ⟨inc, sortAscByCreated (d.histories.filter fun h =>
      h.incident_id == iid), ?_, ?_, ?_, ?_, ?_⟩
    · simp [getIncidentById, hrole, hfind]
    · exact List.mem_of_find?_eq_some hfind
    · simpa using List.find?_some hfind
    · exact sortAscByCreated_perm _
    · exact sortAscByCreated_sorted _

/-- A sample incident used by concrete instantiations. -/
def sampleInc : Incident :=
  { id := "i1", description := "a", state := "open", channel := "phone",
    priority := "low", creation_date := 5, user_id := "u1",
    company_id := "c1", manager_id := none, file_name := none }

/-- A sample store: one incident, its two history rows stored newest
first (out of creation order). -/
def sampleDB : DB :=
  { incidents := [sampleInc],
    histories :=
      [{ incident_id := "i1", description := "later", created_at := 9 },
       { incident_id := "i1", description := "first", created_at := 2 }] }

/-- Concrete instantiation of the incident-by-id theorem: a store with
one incident and two history rows inserted out of order. -/
theorem incidentById_404_or_ascending_history_witness :
    (getIncidentById (some { sub := "m1", user_type := "manager" }) "zz"
        (.ok sampleDB) = .httpError 404 "Incident not found") ∧
    (∃ inc hist,
      getIncidentById (some { sub := "m1", user_type := "manager" }) "i1"
        (.ok sampleDB) = .ok (inc, hist) ∧
      inc.id = "i1" ∧
      hist.Pairwise (fun a b => a.created_at ≤ b.created_at)) := by
  constructor
  · exact (incidentById_404_or_ascending_history _ rfl "zz" sampleDB).1
      (by intro i hi; simp [sampleDB, sampleInc] at hi; subst hi; decide)
  · rcases (incidentById_404_or_ascending_history
        { sub := "m1", user_type := "manager" } rfl "i1" sampleDB).2
        ⟨sampleInc, by simp [sampleDB], rfl⟩ with
      ⟨inc, hist, hres, _, hid, _, hasc⟩
    exact ⟨inc, hist, hres, hid, hasc⟩

/-! ### C3 — /user-company: filter, descending order, cap at 20 -/

/-- C3: an authorized POST to /user-company returns only incidents with
the requested user and company ids, strictly descending by creation
timestamp when all timestamps are distinct, at most 20 of them, and all
of the matches whenever at most 20 exist. -/
theorem userCompany_filter_desc_limit20 (c : Claims) (uid cid : String)
    (hguard : c.user_type = "manager" ∨ c.sub = uid) (d : DB)
    (hdist : (d.incidents.map Incident.creation_date).Nodup) :
    ∃ res, getUserCompanyIncidents (some c) uid cid (.ok d) = .ok res ∧
      res.length ≤ 20 ∧
      (∀ i ∈ res, i.user_id = uid ∧ i.company_id = cid ∧ i ∈ d.incidents) ∧
      res.Pairwise (fun a b => b.creation_date < a.creation_date) ∧
      ((d.incidents.filter fun i =>
          i.user_id == uid && i.company_id == cid).length ≤ 20 →
        ∀ i ∈ d.incidents, i.user_id = uid → i.company_id = cid → i ∈ res) := by
  refine ⟨userCompanyQuery uid cid d, ?_, ?_, ?_, ?_, ?_⟩
  · rcases hguard with h | h <;> simp [getUserCompanyIncidents, h]
  · exact List.length_take_le 20 _
  · intro i hi
    have hs : i ∈ sortDescByCreation (d.incidents.filter fun i =>
        i.user_id == uid && i.company_id == cid) := List.mem_of_mem_take hi
    have hf := (sortDescByCreation_perm _).mem_iff.mp hs
    rcases List.mem_filter.mp hf with ⟨hmem, hp⟩
    simp only [Bool.and_eq_true, beq_iff_eq] at hp
    exact ⟨hp.1, hp.2, hmem⟩
  · -- sorted (weakly) and duplicate-free timestamps give strict descent
    have hsorted : (userCompanyQuery uid cid d).Pairwise
        (fun a b => b.creation_date ≤ a.creation_date) :=
      (sortDescByCreation_sorted _).sublist (List.take_sublist 20 _)
    have hnod : ((userCompanyQuery uid cid d).map
        Incident.creation_date).Nodup := by
      have h1 : ((d.incidents.filter fun i =>
          i.user_id == uid && i.company_id == cid).map
            Incident.creation_date).Nodup :=
        hdist.sublist ((List.filter_sublist _).map _)
      have h2 : ((sortDescByCreation (d.incidents.filter fun i =>
          i.user_id == uid && i.company_id == cid)).map
            Incident.creation_date).Nodup :=
        (((sortDescByCreation_perm _).map Incident.creation_date).nodup_iff).mpr h1
      exact h2.sublist ((List.take_sublist 20 _).map _)
    have hne : (userCompanyQuery uid cid d).Pairwise
        (fun a b => a.creation_date ≠ b.creation_date) :=
      List.pairwise_map.mp hnod
    exact (hsorted.and hne).imp
      (fun h => Nat.lt_of_le_of_ne h.1 (fun e => h.2 e.symm))
  · intro hlen i hi hu hc
    have hmemf : i ∈ d.incidents.filter fun i =>
        i.user_id == uid && i.company_id == cid :=
      List.mem_filter.mpr ⟨hi, by simp [hu, hc]⟩
    have hlen' : (sortDescByCreation (d.incidents.filter fun i =>
        i.user_id == uid && i.company_id == cid)).length ≤ 20 := by
      rwa [(sortDescByCreation_perm _).length_eq]
    unfold userCompanyQuery
    rw [List.take_of_length_le hlen']
    exact (sortDescByCreation_perm _).mem_iff.mpr hmemf

/-- Concrete instantiation of the /user-company theorem, with a manager
credential and the sample store. -/
theorem userCompany_filter_desc_limit20_witness :
    ∃ res, getUserCompanyIncidents
        (some { sub := "m1", user_type := "manager" }) "u1" "c1"
        (.ok sampleDB) = .ok res ∧
      res.length ≤ 20 ∧
      (∀ i ∈ res, i.user_id = "u1" ∧ i.company_id = "c1" ∧
        i ∈ sampleDB.incidents) ∧
      res.Pairwise (fun a b => b.creation_date < a.creation_date) ∧
      ((sampleDB.incidents.filter fun i =>
          i.user_id == "u1" && i.company_id == "c1").length ≤ 20 →
        ∀ i ∈ sampleDB.incidents, i.user_id = "u1" → i.company_id = "c1" →
          i ∈ res) :=
  userCompany_filter_desc_limit20 { sub := "m1", user_type := "manager" }
    "u1" "c1" (Or.inl rfl) sampleDB (by decide)

/-! ### C1 — /call-volume: eight half-open 3-hour buckets -/

/-- C1: a company-role request to /call-volume yields exactly eight
counts in chronological order; the k-th counts the incidents of the
claims subject company with channel phone whose creation timestamp lies
in the half-open bucket from startOfDay + 3k hours (inclusive) to
startOfDay + 3(k+1) hours (exclusive). -/
theorem callVolume_eight_halfopen_buckets (c : Claims)
    (hrole : c.user_type = "company") (d : DB) (startOfDay : Nat) :
    ∃ counts, getCallVolume (some c) (.ok d) startOfDay = .ok counts ∧
      counts.length = 8 ∧
      ∀ k, k < 8 → counts.getD k 0 =
        (d.incidents.filter fun i =>
          i.company_id == c.sub && i.channel == "phone" &&
          decide (startOfDay + 3 * k * 3600 ≤ i.creation_date) &&
          decide (i.creation_date < startOfDay + 3 * (k + 1) * 3600)).length := by
  refine ⟨callVolumeIntervals.map fun se =>
    (d.incidents.filter fun i =>
      i.company_id == c.sub && i.channel == "phone" &&
      decide (startOfDay + se.1 * 3600 ≤ i.creation_date) &&
      decide (i.creation_date < startOfDay + se.2 * 3600)).length, ?_, ?_, ?_⟩
  · simp [getCallVolume, hrole]
  · rfl
  · intro k hk
    interval_cases k <;> rfl

/-- Concrete instantiation of the call-volume theorem at the sample
store and midnight zero. -/
theorem callVolume_eight_halfopen_buckets_witness :
    ∃ counts, getCallVolume (some { sub := "c1", user_type := "company" })
        (.ok sampleDB) 0 = .ok counts ∧
      counts.length = 8 ∧
      ∀ k, k < 8 → counts.getD k 0 =
        (sampleDB.incidents.filter fun i =>
          i.company_id == "c1" && i.channel == "phone" &&
          decide (0 + 3 * k * 3600 ≤ i.creation_date) &&
          decide (i.creation_date < 0 + 3 * (k + 1) * 3600)).length :=
  callVolume_eight_halfopen_buckets
    { sub := "c1", user_type := "company" } rfl sampleDB 0

/-! ### C6 — the self-or-manager guard of /user-company -/

/-- C6: valid claims whose subject differs from the requested user id and
whose role is not manager get exactly a 403 before any data access;
manager claims, or claims whose subject is the requested user id, pass
the guard and reach the query. -/
theorem userCompany_guard_self_or_manager (c : Claims) (uid cid : String) :
    ((c.user_type ≠ "manager" ∧ c.sub ≠ uid) →
      ∀ db, getUserCompanyIncidents (some c) uid cid db =
        .httpError 403 "Not authorized to access this data") ∧
    ((c.user_type = "manager" ∨ c.sub = uid) →
      ∀ d, getUserCompanyIncidents (some c) uid cid (.ok d) =
        .ok (userCompanyQuery uid cid d)) := by
  constructor
  · rintro ⟨h1, h2⟩ db
    simp [getUserCompanyIncidents, h1, h2]
  · rintro (h | h) d <;> simp [getUserCompanyIncidents, h]

/-- Concrete instantiation of the guard theorem: a foreign non-manager
credential is refused even on a failing store, while a self credential
reaches the query. -/
theorem userCompany_guard_self_or_manager_witness :
    getUserCompanyIncidents (some { sub := "u2", user_type := "user" })
      "u1" "c1" (.error "down") =
      .httpError 403 "Not authorized to access this data" ∧
    getUserCompanyIncidents (some { sub := "u1", user_type := "user" })
      "u1" "c1" (.ok sampleDB) = .ok (userCompanyQuery "u1" "c1" sampleDB) :=
  ⟨(userCompany_guard_self_or_manager
      { sub := "u2", user_type := "user" } "u1" "c1").1
      ⟨by decide, by decide⟩ _,
   (userCompany_guard_self_or_manager
      { sub := "u1", user_type := "user" } "u1" "c1").2 (Or.inr rfl) _⟩

/-! ### C7 — totality of the credential decoder -/

/-- C7: the credential decoder never raises: an absent header gives no
claims, any token whose decode fails gives no claims, and a token whose
decode succeeds gives exactly the decoded claims. -/
theorem getCurrentUser_total (decodeTok : List Char → Option Claims) :
    getCurrentUser decodeTok none = none ∧
    (∀ a, decodeTok (stripBearer a) = none →
      getCurrentUser decodeTok (some a) = none) ∧
    (∀ a p, decodeTok (stripBearer a) = some p →
      getCurrentUser decodeTok (some a) = some p) := by
  refine ⟨rfl, ?_, ?_⟩
  · intro a h
    simp [getCurrentUser, h]
  · intro a p h
    simp [getCurrentUser, h]

/-- A concrete decode function for instantiations: verifies exactly the
token tok, yielding a user credential. -/
def dtok0 : List Char → Option Claims :=
  fun s => if s = "tok".toList then
    some { sub := "u1", user_type := "user" } else none

/-- Concrete instantiation of the decoder-totality theorem: absent
header, a garbage token, and a well-signed token with the scheme
marker. -/
theorem getCurrentUser_total_witness :
    getCurrentUser dtok0 none = none ∧
    getCurrentUser dtok0 (some "garbage".toList) = none ∧
    getCurrentUser dtok0 (some "Bearer tok".toList) =
      some { sub := "u1", user_type := "user" } :=
  ⟨(getCurrentUser_total dtok0).1,
   (getCurrentUser_total dtok0).2.1 "garbage".toList (by decide),
   (getCurrentUser_total dtok0).2.2 "Bearer tok".toList _ (by decide)⟩

/-! ### C9 — the scheme strip is substring replacement -/

lemma isPrefixOf_append_self (l t : List Char) :
    l.isPrefixOf (l ++ t) = true := by
  induction l with
  | nil => simp [List.isPrefixOf]
  | cons c cs ih => simp [List.isPrefixOf, ih]

lemma hasOccurrence_false_not_head {pat : List Char} (hp : pat ≠ [])
    {t : List Char} (h : hasOccurrence pat t = false) :
    pat.isPrefixOf t = false := by
  cases t with
  | nil =>
    cases pat with
    | nil => exact absurd rfl hp
    | cons c cs => rfl
  | cons c rest =>
    unfold hasOccurrence at h
    exact (Bool.or_eq_false_iff.mp h).1

lemma replaceAllAux_no_occ {pat : List Char} (rep : List Char) :
    ∀ (t : List Char) (fuel : Nat), t.length ≤ fuel →
      hasOccurrence pat t = false → replaceAllAux pat rep fuel t = t := by
  intro t
  induction t with
  | nil =>
    intro fuel _ _
    cases fuel <;> rfl
  | cons c rest ih =>
    intro fuel hf h
    cases fuel with
    | zero => simp at hf
    | succ f =>
      unfold hasOccurrence at h
      rcases Bool.or_eq_false_iff.mp h with ⟨h1, h2⟩
      unfold replaceAllAux
      rw [if_neg (by simp [h1])]
      have hflen : rest.length ≤ f := by
        simpa using Nat.le_of_succ_le_succ hf
      rw [ih f hflen h2]

lemma replaceAllAux_marker_step (rep t : List Char) (f : Nat) :
    replaceAllAux bearerMarker rep (f + 1) (bearerMarker ++ t) =
      rep ++ replaceAllAux bearerMarker rep f t := by
  conv_lhs => rw [show bearerMarker ++ t =
      'B' :: 'e' :: 'a' :: 'r' :: 'e' :: 'r' :: ' ' :: t from rfl]
  conv_lhs => unfold replaceAllAux
  rw [if_pos (show bearerMarker.isPrefixOf
      ('B' :: 'e' :: 'a' :: 'r' :: 'e' :: 'r' :: ' ' :: t) = true from
    isPrefixOf_append_self bearerMarker t)]
  rfl

lemma stripBearer_marker_append {t : List Char}
    (h : hasOccurrence bearerMarker t = false) :
    stripBearer (bearerMarker ++ t) = t := by
  unfold stripBearer
  rw [if_pos (isPrefixOf_append_self bearerMarker t)]
  unfold replaceAll
  rw [show (bearerMarker ++ t).length = t.length + 6 + 1 by
    simp [bearerMarker]]
  rw [replaceAllAux_marker_step]
  rw [replaceAllAux_no_occ [] t (t.length + 6) (Nat.le_add_right _ _) h]
  rfl

lemma stripBearer_of_no_marker {t : List Char}
    (h : hasOccurrence bearerMarker t = false) : stripBearer t = t := by
  unfold stripBearer
  rw [if_neg]
  simp [hasOccurrence_false_not_head (by decide) h]

/-- C9: for every token t with no occurrence of the scheme marker, the
decoder treats the marker-tagged header and the bare header
identically; the restriction is necessary, because the strip removes
every occurrence of the marker, not just the leading one. -/
theorem bearer_strip_is_substring_replacement {α : Type} (t : List Char)
    (decodeTok : List Char → Option α)
    (h : hasOccurrence bearerMarker t = false) :
    getCurrentUser decodeTok (some (bearerMarker ++ t)) =
      getCurrentUser decodeTok (some t) := by
  simp only [getCurrentUser, stripBearer_marker_append h,
    stripBearer_of_no_marker h]

/-- Concrete instantiation of the substring-replacement theorem, plus the
interior-occurrence caveat: on a token that itself contains the marker,
tagged and bare headers decode differently. -/
theorem bearer_strip_is_substring_replacement_witness :
    (hasOccurrence bearerMarker "abc".toList = false ∧
     getCurrentUser some (some (bearerMarker ++ "abc".toList)) =
       getCurrentUser some (some "abc".toList)) ∧
    getCurrentUser some (some (bearerMarker ++ "xBearer y".toList)) ≠
      getCurrentUser (some ·) (some "xBearer y".toList) :=
  ⟨⟨by decide, bearer_strip_is_substring_replacement "abc".toList some
      (by decide)⟩,
   by decide⟩

/-! ### C2 — guard failure semantics across the protected endpoints -/

/-- The claim that every rule failure carries the message of the manager
and user endpoints is refuted on /call-volume: a valid manager credential
is refused with 403 but with the company-specific detail. -/
theorem guard403_message_not_uniform_cex :
    getCallVolume (some { sub := "m1", user_type := "manager" })
      (.ok sampleDB) 0 =
      .httpError 403 "Only company users can access this endpoint" ∧
    "Only company users can access this endpoint" ≠
      "Not authorized to access this data" :=
  ⟨rfl, by decide⟩

/-- C2 (amended): absent or undecodable claims give 401 Authentication
required on every protected endpoint; valid claims failing the rule give
403, whose detail is Not authorized to access this data on the
self/manager/user endpoints but Only company users can access this
endpoint on the three company endpoints. -/
theorem guard_semantics_per_endpoint (uid cid iid : String)
    (pu : String → Option String) (db : Except String DB) (t0 : Nat) :
    (getUserCompanyIncidents none uid cid db =
        .httpError 401 "Authentication required" ∧
     getCallVolume none db t0 = .httpError 401 "Authentication required" ∧
     getDashboardStats none db = .httpError 401 "Authentication required" ∧
     getCompanyIncidents none db = .httpError 401 "Authentication required" ∧
     getAllIncidents none db = .httpError 401 "Authentication required" ∧
     getUserIncidentsSummary pu none db =
        .httpError 401 "Authentication required" ∧
     getIncidentById none iid db = .httpError 401 "Authentication required" ∧
     getAssignedIncidents pu none db =
        .httpError 401 "Authentication required" ∧
     getManagerDailyStats pu none db =
        .httpError 401 "Authentication required" ∧
     getHighPriorityAssignedIncidents pu none db =
        .httpError 401 "Authentication required") ∧
    (∀ c : Claims,
      (c.user_type ≠ "manager" → c.sub ≠ uid →
        getUserCompanyIncidents (some c) uid cid db =
          .httpError 403 "Not authorized to access this data") ∧
      (c.user_type ≠ "manager" →
        getAllIncidents (some c) db =
          .httpError 403 "Not authorized to access this data" ∧
        getIncidentById (some c) iid db =
          .httpError 403 "Not authorized to access this data" ∧
        getAssignedIncidents pu (some c) db =
          .httpError 403 "Not authorized to access this data" ∧
        getManagerDailyStats pu (some c) db =
          .httpError 403 "Not authorized to access this data" ∧
        getHighPriorityAssignedIncidents pu (some c) db =
          .httpError 403 "Not authorized to access this data") ∧
      (c.user_type ≠ "user" →
        getUserIncidentsSummary pu (some c) db =
          .httpError 403 "Not authorized to access this data") ∧
      (c.user_type ≠ "company" →
        getCallVolume (some c) db t0 =
          .httpError 403 "Only company users can access this endpoint" ∧
        getDashboardStats (some c) db =
          .httpError 403 "Only company users can access this endpoint" ∧
        getCompanyIncidents (some c) db =
          .httpError 403 "Only company users can access this endpoint")) := by
  refine ⟨⟨rfl, rfl, rfl, rfl, rfl, rfl, rfl, rfl, rfl, rfl⟩, ?_⟩
  intro c
  refine ⟨?_, ?_, ?_, ?_⟩
  · intro h1 h2
    simp [getUserCompanyIncidents, h1, h2]
  · intro h1
    exact ⟨by simp [getAllIncidents, h1], by simp [getIncidentById, h1],
      by simp [getAssignedIncidents, h1],
      by simp [getManagerDailyStats, h1],
      by simp [getHighPriorityAssignedIncidents, h1]⟩
  · intro h1
    simp [getUserIncidentsSummary, h1]
  · intro h1
    exact ⟨by simp [getCallVolume, h1], by simp [getDashboardStats, h1],
      by simp [getCompanyIncidents, h1]⟩

/-- Concrete instantiation of the per-endpoint guard theorem: an absent
credential, a foreign user credential on /user-company, and a manager
credential on /call-volume. -/
theorem guard_semantics_per_endpoint_witness :
    getUserCompanyIncidents none "u1" "c1" (.ok sampleDB) =
      .httpError 401 "Authentication required" ∧
    getUserCompanyIncidents (some { sub := "u2", user_type := "user" })
      "u1" "c1" (.ok sampleDB) =
      .httpError 403 "Not authorized to access this data" ∧
    getCallVolume (some { sub := "m1", user_type := "manager" })
      (.ok sampleDB) 0 =
      .httpError 403 "Only company users can access this endpoint" := by
  refine ⟨(guard_semantics_per_endpoint "u1" "c1" "i1" (fun _ => none)
      (.ok sampleDB) 0).1.1, ?_, ?_⟩
  · exact ((guard_semantics_per_endpoint "u1" "c1" "i1" (fun _ => none)
      (.ok sampleDB) 0).2 { sub := "u2", user_type := "user" }).1
      (by decide) (by decide)
  · exact (((guard_semantics_per_endpoint "u1" "c1" "i1" (fun _ => none)
      (.ok sampleDB) 0).2 { sub := "m1", user_type := "manager" }).2.2.2
      (by decide)).1

/-! ### C8 — store failures in the aggregation endpoints -/

lemma isPrefixOf_self (l : List Char) : l.isPrefixOf l = true := by
  induction l with
  | nil => simp [List.isPrefixOf]
  | cons c cs ih => simp [List.isPrefixOf, ih]

lemma hasOccurrence_append_self (pat pre : List Char) :
    hasOccurrence pat (pre ++ pat) = true := by
  induction pre with
  | nil =>
    cases pat with
    | nil => rfl
    | cons c cs =>
      unfold hasOccurrence
      simp [isPrefixOf_self]
  | cons c rest ih =>
    unfold hasOccurrence
    simp [ih]

/-- The claim that every aggregation endpoint turns a store failure into
a 500 carrying the raw message is refuted on /dashboard-stats and
/manager/daily-stats: there the failure escapes the handler uncaught. -/
theorem storeError_500_everywhere_cex :
    isServerErrorWith (getDashboardStats
      (some { sub := "c1", user_type := "company" }) (.error "boom"))
      "boom" = false ∧
    getDashboardStats (some { sub := "c1", user_type := "company" })
      (.error "boom") = .unhandled "boom" ∧
    isServerErrorWith (getManagerDailyStats (fun s => some s)
      (some { sub := "m1", user_type := "manager" }) (.error "boom"))
      "boom" = false ∧
    getManagerDailyStats (fun s => some s)
      (some { sub := "m1", user_type := "manager" }) (.error "boom") =
      .unhandled "boom" :=
  ⟨rfl, rfl, rfl, rfl⟩

/-- C8 (amended): among the aggregation endpoints only /call-volume wraps
a store failure into an HTTP 500, with detail Database error: followed by
the raw message (so the raw message does appear in its detail);
/dashboard-stats and /manager/daily-stats let the failure escape the
handler uncaught. -/
theorem storeError_only_callVolume_500 (msg : String) (t0 : Nat)
    (c : Claims) (hco : c.user_type = "company")
    (cm : Claims) (hmg : cm.user_type = "manager")
    (pu : String → Option String) (mid : String)
    (hpu : pu cm.sub = some mid) :
    getCallVolume (some c) (.error msg) t0 =
      .httpError 500 ("Database error: " ++ msg) ∧
    isServerErrorWith (getCallVolume (some c) (.error msg) t0) msg = true ∧
    getDashboardStats (some c) (.error msg) = .unhandled msg ∧
    getManagerDailyStats pu (some cm) (.error msg) = .unhandled msg := by
  have hcv : getCallVolume (some c) (.error msg) t0 =
      .httpError 500 ("Database error: " ++ msg) := by
    simp [getCallVolume, hco]
  refine ⟨hcv, ?_, by simp [getDashboardStats, hco],
    by simp [getManagerDailyStats, hmg, hpu]⟩
  rw [hcv]
  unfold isServerErrorWith
  simp only [beq_self_eq_true, Bool.true_and]
  have : ("Database error: " ++ msg).toList =
      "Database error: ".toList ++ msg.toList := by
    simp [String.toList]
  rw [this]
  exact hasOccurrence_append_self _ _

/-- Concrete instantiation of the store-failure theorem at the message
boom. -/
theorem storeError_only_callVolume_500_witness :
    getCallVolume (some { sub := "c1", user_type := "company" })
      (.error "boom") 0 = .httpError 500 ("Database error: " ++ "boom") ∧
    isServerErrorWith (getCallVolume
      (some { sub := "c1", user_type := "company" })
      (.error "boom") 0) "boom" = true ∧
    getDashboardStats (some { sub := "c1", user_type := "company" })
      (.error "boom") = .unhandled "boom" ∧
    getManagerDailyStats (fun s => some s)
      (some { sub := "m1", user_type := "manager" }) (.error "boom") =
      .unhandled "boom" :=
  storeError_only_callVolume_500 "boom" 0
    { sub := "c1", user_type := "company" } rfl
    { sub := "m1", user_type := "manager" } rfl (fun s => some s) "m1" rfl

/-! ### C10 — UUID parse of the subject after the guard -/

/-- C10: on /incidents-user, /manager/assigned-incidents and
/manager/daily-stats, a credential that passes the role guard but whose
subject is not a valid UUID string makes the handler fail with the
uncaught parse error — not with any structured HTTP error response. -/
theorem subject_uuid_parse_failure_unhandled (pu : String → Option String)
    (c : Claims) (db : Except String DB) (hpu : pu c.sub = none) :
    (c.user_type = "user" →
      getUserIncidentsSummary pu (some c) db = .unhandled badUuidMsg ∧
      ∀ code detail,
        getUserIncidentsSummary pu (some c) db ≠ .httpError code detail) ∧
    (c.user_type = "manager" →
      getAssignedIncidents pu (some c) db = .unhandled badUuidMsg ∧
      getManagerDailyStats pu (some c) db = .unhandled badUuidMsg ∧
      ∀ code detail,
        getAssignedIncidents pu (some c) db ≠ .httpError code detail) := by
  constructor
  · intro h
    have he : getUserIncidentsSummary pu (some c) db =
        .unhandled badUuidMsg := by
      simp [getUserIncidentsSummary, h, hpu]
    refine ⟨he, ?_⟩
    intro code detail hne
    rw [he] at hne
    exact HResult.noConfusion hne
  · intro h
    have he : getAssignedIncidents pu (some c) db =
        .unhandled badUuidMsg := by
      simp [getAssignedIncidents, h, hpu]
    refine ⟨he, by simp [getManagerDailyStats, h, hpu], ?_⟩
    intro code detail hne
    rw [he] at hne
    exact HResult.noConfusion hne

/-- Concrete instantiation of the UUID-parse theorem: a parser that
rejects every subject, applied to a user and to a manager credential. -/
theorem subject_uuid_parse_failure_unhandled_witness :
    getUserIncidentsSummary (fun _ => none)
      (some { sub := "not-a-uuid", user_type := "user" })
      (.ok sampleDB) = .unhandled badUuidMsg ∧
    getAssignedIncidents (fun _ => none)
      (some { sub := "not-a-uuid", user_type := "manager" })
      (.ok sampleDB) = .unhandled badUuidMsg ∧
    getManagerDailyStats (fun _ => none)
      (some { sub := "not-a-uuid", user_type := "manager" })
      (.ok sampleDB) = .unhandled badUuidMsg :=
  ⟨((subject_uuid_parse_failure_unhandled (fun _ => none)
      { sub := "not-a-uuid", user_type := "user" } (.ok sampleDB) rfl).1
      rfl).1,
   ((subject_uuid_parse_failure_unhandled (fun _ => none)
      { sub := "not-a-uuid", user_type := "manager" } (.ok sampleDB) rfl).2
      rfl).1,
   ((subject_uuid_parse_failure_unhandled (fun _ => none)
      { sub := "not-a-uuid", user_type := "manager" } (.ok sampleDB) rfl).2
      rfl).2.1⟩

end IncidentQuery
